import Mathlib

/-!
Verification of the moviebot recommender (src/bot.py) against its
natural-language specification.

The Python source is shallowly embedded below.  SQLite tables become lists of
row structures inside a `DB` record; every store operation mirrors the SQL it
embeds (including which tables do or do not declare a UNIQUE constraint).  The
TMDb HTTP layer becomes a `Gateway` record of functions whose `none` results
model failed fetches (`tmdb_get` returning `None`).  Float arithmetic in the
scoring formula is modelled exactly over `ℚ`; `random.uniform(-0.3, 0.3)` in
`build_recommendations` becomes an explicit `jitter : Nat → ℚ` argument giving
the value drawn at the i-th call, and `datetime.utcnow().year` becomes the
explicit `current_year` argument.  All definitions are computable.
-/

namespace MovieBot

/-! ### Python value helpers -/

/-- Truthiness of an optional string: Python treats `None` and `""` as falsy. -/
def truthyS : Option String → Bool
  | some s => s ≠ ""
  | none => false

/-- `a or b` for an optional string `a` and a string default `b`
(`it.get("x") or fallback`). -/
def pyOrS (a : Option String) (b : String) : String :=
  match a with
  | some s => if s = "" then b else s
  | none => b

/-- `a or b` where both operands are optional strings
(`item.get("release_date") or item.get("first_air_date")`). -/
def pyOr (a b : Option String) : Option String :=
  match a with
  | some s => if s = "" then b else some s
  | none => b

/-- `int(...)` on a nonempty all-digit string, as it behaves on the
4-character date prefixes the source feeds it (`int(date_str[:4])`); any
non-digit character raises in Python, which the source catches and turns
into `None`, here `none`. -/
def parseNatDigitsAux : List Char → Nat → Option Nat
  | [], acc => some acc
  | c :: cs, acc =>
    if c.isDigit then parseNatDigitsAux cs (acc * 10 + (c.toNat - 48)) else none

def pyInt? (s : String) : Option Nat :=
  match s.data with
  | [] => none
  | c :: cs => parseNatDigitsAux (c :: cs) 0

/-! ### TMDb items and the Gateway (src/bot.py lines 457–519)

An `Item` is one entry of a TMDb result list, with exactly the keys the
source reads from it.  A `Gateway` packages the three remote endpoints the
claims depend on; a `none` answer models a failed `tmdb_get` (timeout,
non-2xx, malformed response) or an empty result set, both of which the
source treats as "no data". -/

structure Item where
  id : Int
  media_type : Option String
  title : Option String
  name : Option String
  original_title : Option String
  original_name : Option String
  genre_ids : List Int
  vote_average : Option ℚ
  popularity : Option ℚ
  release_date : Option String
  first_air_date : Option String
  poster_path : Option String
deriving Repr, DecidableEq

structure Gateway where
  /-- `GET /{media_type}/{tmdb_id}/similar` (`results` list; `none` = failure). -/
  similar : String → Int → Option (List Item)
  /-- `GET /{media_type}/{tmdb_id}/recommendations`. -/
  recommendations : String → Int → Option (List Item)
  /-- `get_tmdb_details("tv", tmdb_id)` projected to `details.get("last_air_date")`:
  outer `none` = the details fetch failed, inner value = the `last_air_date`
  field (absent = `none`). -/
  tv_details_last_air : Int → Option (Option String)

/-- `get_similar_and_recommended` (lines 503–509): concatenates the `results`
of both endpoints, skipping an endpoint whose fetch failed or returned no
results (`if data and data.get("results")`). -/
def get_similar_and_recommended (gw : Gateway) (media_type : String) (tmdb_id : Int) :
    List Item :=
  ((gw.similar media_type tmdb_id).getD []) ++ ((gw.recommendations media_type tmdb_id).getD [])

/-- `extract_year_from_item` (lines 512–519). -/
def extract_year_from_item (it : Item) : Option Int :=
  match pyOr it.release_date it.first_air_date with
  | none => none
  | some s => if s = "" then none else (pyInt? (s.take 4)).map (fun n => (n : Int))

/-- `it.get("media_type") or ("tv" if it.get("name") else "movie")`. -/
def item_media_type (it : Item) : String :=
  pyOrS it.media_type (if truthyS it.name then "tv" else "movie")

/-- `it.get("title") or it.get("name") or "Без названия"`. -/
def item_title (it : Item) : String :=
  pyOrS it.title (pyOrS it.name "Без названия")

/-! ### Table rows and the database (init_db, lines 62–158) -/

structure FavRow where
  user_id : Int
  tmdb_id : Int
  title : String
  media_type : String
deriving Repr, DecidableEq

structure FeedbackRow where
  user_id : Int
  tmdb_id : Int
  status : String
  weight : Int
deriving Repr, DecidableEq

structure CalibRow where
  /-- `id INTEGER PRIMARY KEY AUTOINCREMENT`. -/
  id : Nat
  user_id : Int
  tmdb_id : Int
  title : String
  media_type : String
  status : Option String
  shown : Int
deriving Repr, DecidableEq

structure SubRow where
  user_id : Int
  tmdb_id : Int
  title : String
  media_type : String
  last_air_date : Option String
  has_new : Int
deriving Repr, DecidableEq

structure RecoRow where
  user_id : Int
  tmdb_id : Int
  shown_count : Int
  last_action : Option String
deriving Repr, DecidableEq

/-- The SQLite database.  List order is rowid (insertion) order, which is the
order unqualified SELECTs return rows in.  Note which uniqueness constraints
exist in `init_db`: `favorites` has `UNIQUE(user_id, tmdb_id)` and
`recommendations` has `UNIQUE(user_id, tmdb_id)`, while `calibration_items`
and `subscriptions` have only their autoincrement primary key. -/
structure DB where
  /-- `users`: (id, chat_id). -/
  users : List (Int × Int)
  /-- `user_states`: (user_id, state). -/
  user_states : List (Int × String)
  favorites : List FavRow
  /-- `user_genres`: (user_id, genre_id). -/
  user_genres : List (Int × Int)
  user_feedback : List FeedbackRow
  calibration_items : List CalibRow
  subscriptions : List SubRow
  recommendations : List RecoRow
  /-- Next `calibration_items` autoincrement id. -/
  calib_next_id : Nat
deriving Repr

def emptyDB : DB :=
  { users := [], user_states := [], favorites := [], user_genres := [],
    user_feedback := [], calibration_items := [], subscriptions := [],
    recommendations := [], calib_next_id := 1 }

/-! ### Store operations (lines 161–450) -/

/-- `get_chat_id` (lines 181–187). -/
def get_chat_id (db : DB) (user_id : Int) : Option Int :=
  (db.users.find? (fun p => p.1 == user_id)).map (fun p => p.2)

/-- `set_state` (lines 190–202); the upsert is modelled as delete-then-append,
which is observationally equal for the keyed lookup `get_state`. -/
def set_state (db : DB) (user_id : Int) (state : Option String) : DB :=
  match state with
  | none => { db with user_states := db.user_states.filter (fun p => p.1 != user_id) }
  | some s =>
      { db with user_states :=
          (db.user_states.filter (fun p => p.1 != user_id)) ++ [(user_id, s)] }

/-- `get_state` (lines 205–211). -/
def get_state (db : DB) (user_id : Int) : Option String :=
  (db.user_states.find? (fun p => p.1 == user_id)).map (fun p => p.2)

/-- `add_favorite` (lines 223–231): `INSERT OR IGNORE` against
`UNIQUE(user_id, tmdb_id)`, hence a no-op when the pair already exists. -/
def add_favorite (db : DB) (user_id tmdb_id : Int) (title media_type : String) : DB :=
  if db.favorites.any (fun r => r.user_id == user_id && r.tmdb_id == tmdb_id) then db
  else { db with favorites := db.favorites ++ [⟨user_id, tmdb_id, title, media_type⟩] }

/-- `get_favorites` (lines 234–240): rows `(tmdb_id, title, media_type)`. -/
def get_favorites (db : DB) (user_id : Int) : List (Int × String × String) :=
  (db.favorites.filter (fun r => r.user_id == user_id)).map
    (fun r => (r.tmdb_id, r.title, r.media_type))

/-- `get_user_genres` (lines 243–249). -/
def get_user_genres (db : DB) (user_id : Int) : List Int :=
  (db.user_genres.filter (fun p => p.1 == user_id)).map (fun p => p.2)

/-- The `weight_map` dict inside `add_feedback` (lines 266–273);
`none` models a status key that is absent from the table. -/
def weight_map (status : String) : Option Int :=
  if status = "watched" then some 1
  else if status = "unseen" then some 0
  else if status = "favorite" then some 5
  else if status = "rec_seen_like" then some 4
  else if status = "rec_seen_dislike" then some (-2)
  else if status = "rec_dislike" then some (-5)
  else none

/-- `add_feedback` (lines 265–282): appends one row; the weight is the
explicit weight if given, else `weight_map.get(status, 0)`. -/
def add_feedback (db : DB) (user_id tmdb_id : Int) (status : String)
    (explicit_weight : Option Int) : DB :=
  let weight := match explicit_weight with
    | some w => w
    | none => (weight_map status).getD 0
  { db with user_feedback := db.user_feedback ++ [⟨user_id, tmdb_id, status, weight⟩] }

/-- `get_feedback_weights` (lines 285–294), applied at one title id: the
dict maps a title id to the sum of its rows' weights, with `.get(cid, 0)`
yielding 0 for an absent key — exactly this filtered sum. -/
def get_feedback_weights (db : DB) (user_id tmdb_id : Int) : Int :=
  ((db.user_feedback.filter
      (fun r => r.user_id == user_id && r.tmdb_id == tmdb_id)).map
    (fun r => r.weight)).sum

/-- `get_feedback_statuses` (lines 297–306), applied at one title id. -/
def get_feedback_statuses (db : DB) (user_id tmdb_id : Int) : List String :=
  (db.user_feedback.filter
      (fun r => r.user_id == user_id && r.tmdb_id == tmdb_id)).map
    (fun r => r.status)

/-- `add_calibration_items` (lines 309–321).  `calibration_items` declares no
UNIQUE constraint besides its autoincrement primary key, so the
`INSERT OR IGNORE` there never actually ignores: every item becomes a row. -/
def add_calibration_items (db : DB) (user_id : Int) (items : List Item) : DB :=
  items.foldl (fun db it =>
    { db with
      calibration_items := db.calibration_items ++
        [{ id := db.calib_next_id, user_id := user_id, tmdb_id := it.id,
           title := item_title it, media_type := item_media_type it,
           status := none, shown := 0 }],
      calib_next_id := db.calib_next_id + 1 }) db

/-- The `SELECT ... WHERE user_id=? AND shown=0 LIMIT ?` of
`get_next_calibration_batch` (lines 327–333). -/
def batch_sel (db : DB) (user_id : Int) (lim : Nat) : List CalibRow :=
  (db.calibration_items.filter (fun r => r.user_id == user_id && r.shown == 0)).take lim

/-- The `UPDATE calibration_items SET shown=1 WHERE id IN (...)` of
`get_next_calibration_batch` (lines 335–338). -/
def batch_mark (db : DB) (user_id : Int) (lim : Nat) : DB :=
  let ids := (batch_sel db user_id lim).map (fun r => r.id)
  let items := db.calibration_items.map
    (fun r => if ids.contains r.id then { r with shown := 1 } else r)
  { db with calibration_items := items }

/-- `get_next_calibration_batch` (lines 324–340): select up to `lim` rows with
`shown=0` for the user (in rowid order), mark exactly those rows `shown=1`
(only when the selection is nonempty, `if rows:`), and return their
`(id, tmdb_id, title, media_type)` tuples.  Note the query does not look at
`status` at all. -/
def get_next_calibration_batch (db : DB) (user_id : Int) (lim : Nat) :
    List (Nat × Int × String × String) × DB :=
  if (batch_sel db user_id lim).isEmpty then
    ((batch_sel db user_id lim).map (fun r => (r.id, r.tmdb_id, r.title, r.media_type)), db)
  else
    ((batch_sel db user_id lim).map (fun r => (r.id, r.tmdb_id, r.title, r.media_type)),
      batch_mark db user_id lim)

/-- `set_calibration_status` (lines 343–348): an unconditional
`UPDATE calibration_items SET status=? WHERE id=?`. -/
def set_calibration_status (db : DB) (row_id : Nat) (status : String) : DB :=
  let items := db.calibration_items.map
    (fun r => if r.id == row_id then { r with status := some status } else r)
  { db with calibration_items := items }

/-- `add_subscription_for_tv` (lines 351–359).  The `subscriptions` table
declares no UNIQUE constraint on `(user_id, tmdb_id)` (lines 122–132), so the
`INSERT OR IGNORE` can only conflict on the fresh autoincrement primary key
and therefore always inserts a new row. -/
def add_subscription_for_tv (db : DB) (user_id tmdb_id : Int) (title : String)
    (last_air_date : Option String) : DB :=
  { db with subscriptions := db.subscriptions ++
      [{ user_id := user_id, tmdb_id := tmdb_id, title := title,
         media_type := "tv", last_air_date := last_air_date, has_new := 0 }] }

/-- `mark_subscription_new` (lines 362–371). -/
def mark_subscription_new (db : DB) (user_id tmdb_id : Int) : DB :=
  let subs := db.subscriptions.map
    (fun r => if r.user_id == user_id && r.tmdb_id == tmdb_id
      then { r with has_new := 1 } else r)
  { db with subscriptions := subs }

/-- `update_subscription_last_air_date` (lines 394–403). -/
def update_subscription_last_air_date (db : DB) (user_id tmdb_id : Int)
    (last_air_date : String) : DB :=
  let subs := db.subscriptions.map
    (fun r => if r.user_id == user_id && r.tmdb_id == tmdb_id
      then { r with last_air_date := some last_air_date } else r)
  { db with subscriptions := subs }

/-- `get_recommendation_meta` (lines 434–450) at one title id, with the
caller's default `{"shown_count": 0, "last_action": None}` for an absent key
(`recommendations` has `UNIQUE(user_id, tmdb_id)`, so `find?` is the row). -/
def get_recommendation_meta (db : DB) (user_id tmdb_id : Int) : Int × Option String :=
  match db.recommendations.find?
      (fun r => r.user_id == user_id && r.tmdb_id == tmdb_id) with
  | some r => (r.shown_count, r.last_action)
  | none => (0, none)

/-! ### Look-alike calibration (lines 554–614, callback lines 1106–1138) -/

/-- `build_calibration_candidates` (lines 554–563): for every favorite, take
the first `max_per_fav` related items, dedup by title id keeping the first
occurrence (order-preserving, as a Python dict), and persist the pool. -/
def build_calibration_candidates (gw : Gateway) (db : DB) (user_id : Int)
    (max_per_fav : Nat) : DB :=
  let favorites := get_favorites db user_id
  let candidates := favorites.foldl
    (fun cs f =>
      ((get_similar_and_recommended gw f.2.2 f.1).take max_per_fav).foldl
        (fun cs it => if cs.any (fun c => c.id == it.id) then cs else cs ++ [it]) cs)
    ([] : List Item)
  add_calibration_items db user_id candidates

/-- The database effect of `send_calibration_batch` (lines 566–614): fetch the
next batch of 3; an empty batch ends calibration (`set_state(user_id, None)`);
otherwise the rows are presented (messages only, no further writes). -/
def send_calibration_batch (db : DB) (user_id : Int) : DB :=
  let res := get_next_calibration_batch db user_id 3
  if res.1.isEmpty then set_state res.2 user_id none else res.2

/-- The `calib:` branch of `handle_callback` (lines 1106–1138): set the row's
status, then (if the row exists) append feedback and, for a `favorite`
response, create the favorite and — for a series — a subscription seeded
with the current `last_air_date`; finally, when no shown row is left with a
NULL status and the user is still in the `calibration` state, send the next
batch.  `handle_calib_writes` is the write phase (lines 1106–1124), and
`handle_calib` adds the remaining-count gate (lines 1126–1138). -/
def handle_calib_writes (gw : Gateway) (db : DB) (user_id : Int) (row_id : Nat)
    (status : String) : DB :=
  let db1 := set_calibration_status db row_id status
  match db1.calibration_items.find? (fun r => r.id == row_id) with
  | none => db1
  | some row =>
    let dbA := add_feedback db1 user_id row.tmdb_id status none
    if status = "favorite" then
      let dbB := add_favorite dbA user_id row.tmdb_id row.title row.media_type
      if row.media_type = "tv" then
        add_subscription_for_tv dbB user_id row.tmdb_id row.title
          ((gw.tv_details_last_air row.tmdb_id).getD none)
      else dbB
    else dbA

def handle_calib (gw : Gateway) (db : DB) (user_id : Int) (row_id : Nat)
    (status : String) : DB :=
  let db2 := handle_calib_writes gw db user_id row_id status
  let remaining := (db2.calibration_items.filter
    (fun r => r.user_id == user_id && r.shown == 1 && r.status == none)).length
  if remaining == 0 && get_state db2 user_id == some "calibration" then
    send_calibration_batch db2 user_id
  else db2

/-! ### Recommendation engine (lines 621–752) -/

/-- One entry of the `candidate_scores` dict. -/
structure Candidate where
  tmdb_id : Int
  title : String
  original_title : String
  media_type : String
  genres : List Int
  rating : ℚ
  popularity : ℚ
  year : Option Int
  poster_path : Option String
  freq : Int
  score : ℚ
deriving Repr, DecidableEq

/-- The dict value `candidate_scores.setdefault(cid, {...})` builds from an
item (lines 671–686), before the `freq` increment. -/
def newCandidate (it : Item) : Candidate :=
  { tmdb_id := it.id
    title := item_title it
    original_title := pyOrS it.original_title (pyOrS it.original_name (item_title it))
    media_type := item_media_type it
    genres := it.genre_ids
    rating := it.vote_average.getD 0
    popularity := it.popularity.getD 0
    year := extract_year_from_item it
    poster_path := it.poster_path
    freq := 0
    score := 0 }

/-- `data["freq"] += 1` on the entry with the given id. -/
def updateFreq (cs : List Candidate) (cid : Int) : List Candidate :=
  cs.map (fun c => if c.tmdb_id == cid then { c with freq := c.freq + 1 } else c)

/-- The `exclude_statuses` set (lines 634–641). -/
def exclude_statuses : List String :=
  ["favorite", "watched", "rec_seen", "rec_seen_like", "rec_seen_dislike", "rec_dislike"]

/-- `cid in excluded_tmdb_ids` (lines 643–646): some feedback row for this
user and title carries an excluded status. -/
def is_excluded (db : DB) (user_id tmdb_id : Int) : Bool :=
  (get_feedback_statuses db user_id tmdb_id).any (fun s => exclude_statuses.contains s)

/-- The body of the aggregation loop (lines 654–687) for one item: skip
favorites and excluded titles, otherwise `setdefault` (the insertion-ordered
dict is an association list keeping the first-seen attributes) and bump
`freq`. -/
def aggStep (favorites_ids : List Int) (excluded : Int → Bool)
    (cs : List Candidate) (it : Item) : List Candidate :=
  if favorites_ids.contains it.id then cs
  else if excluded it.id then cs
  else
    updateFreq
      (if cs.any (fun c => c.tmdb_id == it.id) then cs else cs ++ [newCandidate it])
      it.id

/-- The candidate-aggregation loop over favorites (lines 651–687), with the
list of favorites to iterate as an explicit argument (the source iterates all
of the user's favorites). -/
def aggregate_candidates (gw : Gateway) (favorites_ids : List Int)
    (excluded : Int → Bool) (favs : List (Int × String × String)) : List Candidate :=
  favs.foldl
    (fun cs f => (get_similar_and_recommended gw f.2.2 f.1).foldl
      (aggStep favorites_ids excluded) cs)
    []

/-- The tiered recency term (lines 697–709); a falsy year (absent or 0)
contributes nothing. -/
def recency_bonus (current_year : Int) (year : Option Int) : ℚ :=
  match year with
  | none => 0
  | some y =>
    if y = 0 then 0
    else
      let age := max 0 (current_year - y)
      if age ≤ 10 then 4.0
      else if age ≤ 20 then 2.0
      else if y ≥ 1990 then 0.5
      else -2.0

/-- The ignore penalty (lines 711–718): shown at least once with no action
beyond `shown`. -/
def ignore_penalty (meta : Int × Option String) : ℚ :=
  if meta.1 ≥ 1 ∧ (meta.2 = none ∨ meta.2 = some "shown") then -4.0 else 0

/-- `len(genres & user_genres)` (line 691): distinct genre ids shared with the
user's genre set. -/
def genre_overlap_count (user_genres : List Int) (genres : List Int) : Nat :=
  ((genres.dedup).filter (fun g => user_genres.contains g)).length

/-- The score of one candidate (lines 720–731), with `j` the value
`random.uniform(-0.3, 0.3)` returned at this iteration. -/
def candidate_score (db : DB) (user_id : Int) (user_genres : List Int)
    (current_year : Int) (c : Candidate) (j : ℚ) : ℚ :=
  2.3 * (c.freq : ℚ)
    + 1.2 * (genre_overlap_count user_genres c.genres : ℚ)
    + 1.0 * c.rating
    + 0.6 * (c.popularity / 10.0)
    + 2.5 * ((get_feedback_weights db user_id c.tmdb_id : Int) : ℚ)
    + recency_bonus current_year c.year
    + ignore_penalty (get_recommendation_meta db user_id c.tmdb_id)
    + j

/-- The scoring loop (lines 689–733) in dict-insertion order, threading the
index of the jitter draw. -/
def score_all (db : DB) (user_id : Int) (user_genres : List Int)
    (current_year : Int) (jitter : Nat → ℚ) : Nat → List Candidate → List Candidate
  | _, [] => []
  | i, c :: rest =>
    { c with score := candidate_score db user_id user_genres current_year c (jitter i) }
      :: score_all db user_id user_genres current_year jitter (i + 1) rest

/-- Stable insertion of `x` after every element `y` of an already-built
prefix with `le y x`. -/
def insertStable (le : α → α → Bool) (x : α) : List α → List α
  | [] => [x]
  | y :: ys => if le y x then y :: insertStable le x ys else x :: y :: ys

/-- A stable sort by `le`.  `sorted(..., key=score, reverse=True)` (line 735)
is CPython's stable sort under the flipped comparison; a stable sort's output
is determined by the comparison, so insertion sort realizes it.  (Core's
`List.mergeSort` is avoided only because its well-founded recursion does not
reduce inside the kernel.) -/
def sortStable (le : α → α → Bool) (l : List α) : List α :=
  l.foldl (fun acc x => insertStable le x acc) []

/-- Descending by score: `sorted(candidate_scores.values(), key=lambda x: x["score"], reverse=True)`. -/
def rankedDesc (cs : List Candidate) : List Candidate :=
  sortStable (fun a b => decide (b.score ≤ a.score)) cs

/-- `if year and year < 1990` (line 744): Python truthiness makes year 0 not
"old". -/
def is_old (c : Candidate) : Bool :=
  match c.year with
  | some y => decide (y ≠ 0) && decide (y < 1990)
  | none => false

/-- The final selection loop (lines 739–752): walk the ranked list, skip
"very old" candidates beyond the cap, append, and break once `limit` titles
are selected (the length check runs after the append). -/
def select_with_old_cap (limit max_old : Nat) :
    List Candidate → Nat → Nat → List Candidate
  | [], _, _ => []
  | c :: rest, old_count, sel_len =>
    if is_old c then
      if max_old ≤ old_count then
        select_with_old_cap limit max_old rest old_count sel_len
      else
        c :: (if limit ≤ sel_len + 1 then []
              else select_with_old_cap limit max_old rest (old_count + 1) (sel_len + 1))
    else
      c :: (if limit ≤ sel_len + 1 then []
            else select_with_old_cap limit max_old rest old_count (sel_len + 1))

/-- The ranked candidate list of `build_recommendations` before the diversity
cut, generalized over the list of favorites whose related titles are fetched
(the source iterates the full favorites list, see `build_recommendations`). -/
def ranked_candidates (gw : Gateway) (db : DB) (jitter : Nat → ℚ)
    (current_year : Int) (user_id : Int)
    (fetch_favs : List (Int × String × String)) : List Candidate :=
  rankedDesc
    (score_all db user_id (get_user_genres db user_id) current_year jitter 0
      (aggregate_candidates gw
        ((get_favorites db user_id).map (fun f => f.1))
        (fun tid => is_excluded db user_id tid)
        fetch_favs))

/-- `build_recommendations` (lines 621–752) with the aggregation's favorite
list as the last argument.  `max_old = max(1, int(limit * 0.2))`: for every
nonnegative integer `limit`, the IEEE-double product `limit * 0.2` lies
strictly between `limit/5` and the next integer (0.2 rounds up by ≈5.6e-17
relatively), so `int(limit * 0.2) = limit / 5` in integer division. -/
def build_recommendations_core (gw : Gateway) (db : DB) (jitter : Nat → ℚ)
    (current_year : Int) (user_id : Int) (limit : Nat)
    (fetch_favs : List (Int × String × String)) : List Candidate :=
  if (get_favorites db user_id).isEmpty then []
  else
    select_with_old_cap limit (max 1 (limit / 5))
      (ranked_candidates gw db jitter current_year user_id fetch_favs) 0 0

/-- `build_recommendations(user_id, limit)` itself: the aggregation iterates
exactly the user's favorites. -/
def build_recommendations (gw : Gateway) (db : DB) (jitter : Nat → ℚ)
    (current_year : Int) (user_id : Int) (limit : Nat) : List Candidate :=
  build_recommendations_core gw db jitter current_year user_id limit
    (get_favorites db user_id)

/-! ### Subscription watcher (subscription_worker, lines 759–789) -/

/-- A message the worker sends to a chat about a new episode. -/
structure Notification where
  chat_id : Int
  title : String
  marker : String
deriving Repr, DecidableEq

/-- The body of the worker's per-row loop (lines 771–785) for one snapshot
row `(user_id, tmdb_id, title, last_air_date)`: a failed details fetch skips
the row; a truthy fetched marker that differs from the stored one updates the
store, sets `has_new`, and sends one message if the user's chat is known
(`if chat_id:`). -/
def worker_row_step (gw : Gateway) (acc : DB × List Notification)
    (row : Int × Int × String × Option String) : DB × List Notification :=
  match gw.tv_details_last_air row.2.1 with
  | none => acc
  | some new_last =>
    match new_last with
    | none => acc
    | some s =>
      if s = "" then acc
      else if some s == row.2.2.2 then acc
      else
        let db1 := update_subscription_last_air_date acc.1 row.1 row.2.1 s
        let db2 := mark_subscription_new db1 row.1 row.2.1
        match get_chat_id db2 row.1 with
        | some chat =>
            if chat == 0 then (db2, acc.2)
            else (db2, acc.2 ++ [⟨chat, row.2.2.1, s⟩])
        | none => (db2, acc.2)

/-- `SELECT DISTINCT`: first occurrences, in scan order. -/
def distinctAux [BEq α] (seen : List α) : List α → List α
  | [] => []
  | x :: xs =>
    if seen.contains x then distinctAux seen xs
    else x :: distinctAux (x :: seen) xs

def distinct [BEq α] (l : List α) : List α := distinctAux [] l

/-- One iteration of the infinite `subscription_worker` loop (lines 759–789):
snapshot the distinct `(user_id, tmdb_id, title, last_air_date)` rows, then
process each in order, threading the database and collecting the
notifications sent. -/
def worker_cycle (gw : Gateway) (db : DB) : DB × List Notification :=
  (distinct (db.subscriptions.map
      (fun r => (r.user_id, r.tmdb_id, r.title, r.last_air_date)))).foldl
    (worker_row_step gw) (db, [])

/-! ### Marker ordering and the watcher's evolution relation

`last_air_date` markers are ISO-8601 `YYYY-MM-DD` strings, which order
chronologically exactly as they order lexicographically; `markerLe` is that
lexicographic order lifted to the nullable column, with NULL and `""` (both
falsy in Python) below everything. -/

def charListLtb : List Char → List Char → Bool
  | [], [] => false
  | [], _ :: _ => true
  | _ :: _, [] => false
  | a :: as, b :: bs => if a < b then true else if b < a then false else charListLtb as bs

def strLeB (a b : String) : Bool := a == b || charListLtb a.data b.data

def markerLe (a b : Option String) : Bool :=
  match a with
  | none => true
  | some x =>
    x == "" ||
      (match b with
       | some y => strLeB x y
       | none => false)

/-- The marker `m` is exactly what a successful, truthy `last_air_date` fetch
for title `t` returns. -/
def fetchGoodMarker (gw : Gateway) (t : Int) (m : Option String) : Prop :=
  ∃ s, gw.tv_details_last_air t = some (some s) ∧ s ≠ "" ∧ m = some s

/-- How any single worker step may change one subscription row: the key
fields are untouched and the marker is either left alone or overwritten with
the fetched marker of that row's title. -/
def rowEvolve (gw : Gateway) (o n : SubRow) : Prop :=
  n.user_id = o.user_id ∧ n.tmdb_id = o.tmdb_id ∧
    (n.last_air_date = o.last_air_date ∨ fetchGoodMarker gw n.tmdb_id n.last_air_date)

/-- The rows `add_calibration_items` appends for `items`, starting at
autoincrement id `n`. -/
def calRows (user_id : Int) : Nat → List Item → List CalibRow
  | _, [] => []
  | n, it :: its =>
    { id := n, user_id := user_id, tmdb_id := it.id, title := item_title it,
      media_type := item_media_type it, status := none, shown := 0 }
      :: calRows user_id (n + 1) its

/-! ### Concrete fixtures used in witnesses and counterexamples -/

/-- A gateway on which every fetch fails. -/
def gwEmpty : Gateway := ⟨fun _ _ => none, fun _ _ => none, fun _ => none⟩

/-- A movie item with the given id and release date. -/
def mkItem (id : Int) (date : String) : Item :=
  { id := id, media_type := some "movie", title := some "T", name := none,
    original_title := none, original_name := none, genre_ids := [],
    vote_average := some 7, popularity := some 10, release_date := some date,
    first_air_date := none, poster_path := none }

/-- A fallback candidate (never an element of any list built here). -/
def noCandidate : Candidate := newCandidate (mkItem 0 "")

/-- One user (id 1) with one favorite movie (tmdb id 10). -/
def dbOneFav : DB := { emptyDB with favorites := [⟨1, 10, "Fav", "movie"⟩] }

/-- The favorite's related titles: one recent movie, tmdb id 11. -/
def gwRelatedNew : Gateway :=
  { gwEmpty with similar := fun mt t =>
      if mt == "movie" && t == 10 then some [mkItem 11 "2015-03-03"] else none }

/-- The favorite's related titles: one pre-1990 movie, tmdb id 11. -/
def gwRelatedOld : Gateway :=
  { gwEmpty with similar := fun mt t =>
      if mt == "movie" && t == 10 then some [mkItem 11 "1980-01-01"] else none }

/-- The first ten related titles of the favorite: distinct tmdb ids 101–110. -/
def itemsTen : List Item :=
  (List.range 10).map (fun i => mkItem (101 + (i : Int)) "2015-01-01")

/-- The favorite's related titles: ten distinct movies, tmdb ids 101–110. -/
def gwRelatedTen : Gateway :=
  { gwEmpty with similar := fun mt t => if mt == "movie" && t == 10 then some itemsTen else none }

/-- One calibration row (id 1) already shown and awaiting its response. -/
def dbCalibOne : DB :=
  { emptyDB with
    calibration_items := [⟨1, 1, 50, "T", "movie", none, 1⟩],
    calib_next_id := 2 }

/-- Six not-yet-shown calibration rows (ids 1–6) for user 1. -/
def dbCalibSix : DB :=
  { emptyDB with
    calibration_items :=
      [⟨1, 1, 61, "A", "movie", none, 0⟩, ⟨2, 1, 62, "B", "movie", none, 0⟩,
       ⟨3, 1, 63, "C", "movie", none, 0⟩, ⟨4, 1, 64, "D", "movie", none, 0⟩,
       ⟨5, 1, 65, "E", "movie", none, 0⟩, ⟨6, 1, 66, "F", "movie", none, 0⟩],
    calib_next_id := 7 }

/-- `dbCalibSix` after its first batch of three has been fetched and marked
shown. -/
def dbCalibShown : DB := (get_next_calibration_batch dbCalibSix 1 3).2

/-- A subscription whose stored marker is still NULL (the chat of user 1 is
500). -/
def dbSubNoMarker : DB :=
  { emptyDB with
    users := [(1, 500)],
    subscriptions := [⟨1, 100, "Show", "tv", none, 0⟩] }

/-- A subscription seeded with marker `2024-01-01`. -/
def dbSubSeeded : DB :=
  { emptyDB with
    users := [(1, 500)],
    subscriptions := [⟨1, 100, "Show", "tv", some "2024-01-01", 0⟩] }

/-- TMDb currently reports `last_air_date = 2024-05-01` for series 100. -/
def gwAirDate : Gateway :=
  { gwEmpty with tv_details_last_air := fun t =>
      if t == 100 then some (some "2024-05-01") else none }

/-- TMDb currently reports `last_air_date = 2024-06-01` for series 100. -/
def gwAirDateLater : Gateway :=
  { gwEmpty with tv_details_last_air := fun t =>
      if t == 100 then some (some "2024-06-01") else none }

/-- One existing feedback row for user 7 on title 42. -/
def dbFeedbackOne : DB :=
  { emptyDB with user_feedback := [⟨7, 42, "watched", 1⟩] }

/-! ## General lemmas -/

theorem foldl_preserves {α : Type _} {β : Type _} (g : α → β → α) (P : α → Prop)
    (h : ∀ a b, P a → P (g a b)) :
    ∀ (l : List β) (a : α), P a → P (l.foldl g a) := by
  intro l
  induction l with
  | nil => intro a ha; exact ha
  | cons b bs ih => intro a ha; exact ih (g a b) (h a b ha)

theorem foldl_congr_filter {α : Type _} {β : Type _} (g : α → β → α) (p : β → Bool)
    (hid : ∀ b, p b = false → ∀ a, g a b = a) :
    ∀ (l : List β) (a : α), l.foldl g a = (l.filter p).foldl g a := by
  intro l
  induction l with
  | nil => intro a; rfl
  | cons b bs ih =>
    intro a
    by_cases hb : p b = true
    · simp only [List.foldl_cons, List.filter_cons, hb, if_pos]
      exact ih (g a b)
    · have hb' : p b = false := by rwa [Bool.not_eq_true] at hb
      simp only [List.foldl_cons, List.filter_cons, hb', Bool.false_eq_true, if_neg,
        not_false_iff, hid b hb' a]
      exact ih a

theorem int_contains_iff (l : List Int) (a : Int) : l.contains a = true ↔ a ∈ l := by
  simp [List.contains_iff_exists_mem_beq]

theorem headD_mem {α : Type _} (l : List α) (d : α) (h : l ≠ []) : l.headD d ∈ l := by
  cases l with
  | nil => exact absurd rfl h
  | cons x xs => exact List.mem_cons_self x xs

/-! ## Claim C2 (code_bug): a repeated identical calibration response is not a
no-op -/

/-- Claim C2: processing the same calibration response twice is claimed to be
a no-op, but the `calib:` callback branch appends a `FeedbackEvent`
unconditionally — it never checks whether the row's status was already set.
Replaying `calib:1:watched` on a single shown row appends two identical
feedback rows (the net feedback weight of the title doubles), while the
status and favorites indeed stay unchanged. -/
theorem repeated_calib_response_double_feedback :
    (handle_calib gwEmpty (handle_calib gwEmpty dbCalibOne 1 1 "watched") 1 1 "watched").user_feedback
        = [⟨1, 50, "watched", 1⟩, ⟨1, 50, "watched", 1⟩]
      ∧ (handle_calib gwEmpty (handle_calib gwEmpty dbCalibOne 1 1 "watched") 1 1 "watched").calibration_items
        = [⟨1, 1, 50, "T", "movie", some "watched", 1⟩]
      ∧ (handle_calib gwEmpty (handle_calib gwEmpty dbCalibOne 1 1 "watched") 1 1 "watched").favorites
        = [] := by
  decide

/-! ## Claim C3 (code_bug): no silent first observation in the watcher -/

/-- Claim C3: the spec requires that a cycle which finds a marker for a
subscription whose stored marker is empty updates silently.  The worker's
test (line 776) is only `new_last_air_date and new_last_air_date !=
last_air_date`, with no emptiness check on the stored side: on a NULL-marker
row it both updates the marker and sends the "new episode" notification. -/
theorem worker_notifies_on_first_observation :
    (worker_cycle gwAirDate dbSubNoMarker).2 = [⟨500, "Show", "2024-05-01"⟩]
      ∧ (worker_cycle gwAirDate dbSubNoMarker).1.subscriptions.map
          (fun r => r.last_air_date) = [some "2024-05-01"] := by
  decide

/-! ## Claim C7 (code_bug): favorites dedup, subscriptions do not -/

/-- Claim C7: re-adding a favorite is a no-op (`INSERT OR IGNORE` against
`UNIQUE(user_id, tmdb_id)`), but re-subscribing is not: the `subscriptions`
table declares no UNIQUE constraint on `(user_id, tmdb_id)`, so its
`INSERT OR IGNORE` always inserts, and the second identical
`add_subscription_for_tv` leaves two rows. -/
theorem add_favorite_idempotent_but_subscription_duplicated :
    (add_favorite (add_favorite emptyDB 1 100 "Dark" "tv") 1 100 "Dark" "tv").favorites.length = 1
      ∧ (add_subscription_for_tv
          (add_subscription_for_tv emptyDB 1 100 "Dark" (some "2020-06-27"))
          1 100 "Dark" (some "2020-06-27")).subscriptions.length = 2 := by
  decide

/-! ## Claim C4: the old-title cap -/

/-- Claim C4, counterexample: the claim's bound `⌈0.2·N⌉` fails at `N = 0`.
`max_old = max(1, int(limit * 0.2))` is 1 even when `limit = 0`, and the
`len(selected) >= limit` break only runs after an append, so a call with
`limit = 0` still returns one title — here a pre-1990 one, although
`⌈0.2·0⌉ = 0`. -/
theorem old_cap_violated_at_limit_zero :
    (build_recommendations gwRelatedOld dbOneFav (fun _ => 0) 2024 1 0).countP is_old = 1 := by
  decide

/-! ## Claim C5: the calibration pool size -/

/-- Claim C5, counterexample: `build_calibration_candidates` has no overall
pool cap of 9; it takes up to `max_per_fav = 10` related titles per favorite.
A single favorite with ten distinct related titles yields a pool of ten
deduplicated entries. -/
theorem calibration_pool_can_exceed_nine :
    (build_calibration_candidates gwRelatedTen dbOneFav 1 10).calibration_items.length = 10
      ∧ ((build_calibration_candidates gwRelatedTen dbOneFav 1 10).calibration_items.map
          (fun r => r.tmdb_id)).Nodup := by
  decide

/-! ## Claim C6: batch gating -/

/-- Claim C6, counterexample: `get_next_calibration_batch` does not return an
empty batch while shown items await a response.  After a first batch of three
is shown (and no status set at all), a second call returns the next three
unshown rows. -/
theorem second_batch_nonempty_before_status :
    (get_next_calibration_batch dbCalibShown 1 3).1
        = [(4, 64, "D", "movie"), (5, 65, "E", "movie"), (6, 66, "F", "movie")]
      ∧ (dbCalibShown.calibration_items.filter
          (fun r => r.shown == 1 && r.status == none)).length = 3 := by
  decide

/-! ## Claim C10: unrecognized feedback statuses get weight 0 -/

/-- Claim C10: `add_feedback` with a status outside the fixed weight table and
no explicit weight appends one event with weight 0, which leaves the title's
net feedback weight unchanged. -/
theorem unknown_feedback_status_weight_zero (db : DB) (u tid : Int) (status : String)
    (h : status ∉ ["watched", "unseen", "favorite", "rec_seen_like",
      "rec_seen_dislike", "rec_dislike"]) :
    (add_feedback db u tid status none).user_feedback
        = db.user_feedback ++ [⟨u, tid, status, 0⟩]
      ∧ get_feedback_weights (add_feedback db u tid status none) u tid
        = get_feedback_weights db u tid := by
  have hw : weight_map status = none := by
    simp only [List.mem_cons, not_or] at h
    obtain ⟨h1, h2, h3, h4, h5, h6, -⟩ := h
    simp [weight_map, h1, h2, h3, h4, h5, h6]
  have hrow : (add_feedback db u tid status none).user_feedback
      = db.user_feedback ++ [⟨u, tid, status, 0⟩] := by
    simp [add_feedback, hw]
  refine ⟨hrow, ?_⟩
  simp [get_feedback_weights, hrow, List.filter_append]

theorem unknown_feedback_status_weight_zero_witness :
    ((add_feedback dbFeedbackOne 7 42 "rec_seen" none).user_feedback
        = dbFeedbackOne.user_feedback ++ [⟨7, 42, "rec_seen", 0⟩])
      ∧ get_feedback_weights (add_feedback dbFeedbackOne 7 42 "rec_seen" none) 7 42
        = get_feedback_weights dbFeedbackOne 7 42 :=
  unknown_feedback_status_weight_zero dbFeedbackOne 7 42 "rec_seen" (by decide)

/-! ## Claim C6: supporting lemmas -/

theorem add_feedback_calibration_items (db : DB) (u t : Int) (s : String) (w : Option Int) :
    (add_feedback db u t s w).calibration_items = db.calibration_items := rfl

theorem add_favorite_calibration_items (db : DB) (u t : Int) (ti mt : String) :
    (add_favorite db u t ti mt).calibration_items = db.calibration_items := by
  unfold add_favorite
  split <;> rfl

theorem add_subscription_calibration_items (db : DB) (u t : Int) (ti : String)
    (m : Option String) :
    (add_subscription_for_tv db u t ti m).calibration_items = db.calibration_items := rfl

theorem set_calibration_status_items (db : DB) (rid : Nat) (st : String) :
    (set_calibration_status db rid st).calibration_items
      = db.calibration_items.map
          (fun r => if r.id == rid then { r with status := some st } else r) := rfl

theorem handle_calib_eq (gw : Gateway) (db : DB) (u : Int) (rid : Nat) (st : String) :
    handle_calib gw db u rid st =
      if ((handle_calib_writes gw db u rid st).calibration_items.filter
            (fun r => r.user_id == u && r.shown == 1 && r.status == none)).length == 0
          && get_state (handle_calib_writes gw db u rid st) u == some "calibration"
      then send_calibration_batch (handle_calib_writes gw db u rid st) u
      else handle_calib_writes gw db u rid st := rfl

theorem handle_calib_writes_eq (gw : Gateway) (db : DB) (u : Int) (rid : Nat)
    (st : String) :
    handle_calib_writes gw db u rid st
      = match (set_calibration_status db rid st).calibration_items.find?
            (fun r => r.id == rid) with
        | none => set_calibration_status db rid st
        | some row =>
          if st = "favorite" then
            if row.media_type = "tv" then
              add_subscription_for_tv
                (add_favorite
                  (add_feedback (set_calibration_status db rid st) u row.tmdb_id st none)
                  u row.tmdb_id row.title row.media_type)
                u row.tmdb_id row.title ((gw.tv_details_last_air row.tmdb_id).getD none)
            else
              add_favorite
                (add_feedback (set_calibration_status db rid st) u row.tmdb_id st none)
                u row.tmdb_id row.title row.media_type
          else add_feedback (set_calibration_status db rid st) u row.tmdb_id st none := rfl

theorem handle_calib_writes_calibration_items (gw : Gateway) (db : DB) (u : Int)
    (rid : Nat) (st : String) :
    (handle_calib_writes gw db u rid st).calibration_items
      = (set_calibration_status db rid st).calibration_items := by
  rw [handle_calib_writes_eq]
  cases hf : (set_calibration_status db rid st).calibration_items.find?
      (fun r => r.id == rid) with
  | none => rfl
  | some row =>
    by_cases hst : st = "favorite"
    · subst hst
      by_cases hmt : row.media_type = "tv"
      · simp [hmt, add_subscription_calibration_items,
          add_favorite_calibration_items, add_feedback_calibration_items]
      · simp [hmt, add_favorite_calibration_items, add_feedback_calibration_items]
    · simp [hst, add_feedback_calibration_items]

theorem get_next_calibration_batch_fst (db : DB) (u : Int) (lim : Nat) :
    (get_next_calibration_batch db u lim).1
      = ((db.calibration_items.filter
            (fun r => r.user_id == u && r.shown == 0)).take lim).map
          (fun r => (r.id, r.tmdb_id, r.title, r.media_type)) := by
  unfold get_next_calibration_batch
  split <;> rfl

/-- Claim C6 (amended): `get_next_calibration_batch` is gated by the `shown`
flag, not by pending statuses — every returned row was an unshown row of the
caller's pool, and the batch is empty exactly when no unshown row remains
(for a positive limit); the "fresh batch only once every shown item has a
non-null status" rule is enforced one level up, in the `calib:` callback,
which leaves all `shown` flags untouched whenever some shown row still has a
NULL status after the update. -/
theorem calibration_batch_gating :
    (∀ (db : DB) (u : Int) (lim : Nat),
       ∀ r ∈ (get_next_calibration_batch db u lim).1,
         ∃ row ∈ db.calibration_items, row.id = r.1 ∧ row.user_id = u ∧ row.shown = 0)
    ∧ (∀ (db : DB) (u : Int) (lim : Nat), 0 < lim →
        ((get_next_calibration_batch db u lim).1 = [] ↔
          ∀ row ∈ db.calibration_items, row.user_id = u → row.shown ≠ 0))
    ∧ (∀ (gw : Gateway) (db : DB) (u : Int) (row_id : Nat) (status : String),
        (∃ row ∈ (set_calibration_status db row_id status).calibration_items,
            row.user_id = u ∧ row.shown = 1 ∧ row.status = none) →
        (handle_calib gw db u row_id status).calibration_items.map
            (fun r => (r.id, r.shown))
          = db.calibration_items.map (fun r => (r.id, r.shown))) := by
  refine ⟨?_, ?_, ?_⟩
  · intro db u lim r hr
    rw [get_next_calibration_batch_fst] at hr
    obtain ⟨row, hrow, rfl⟩ := List.mem_map.mp hr
    have h1 : row ∈ db.calibration_items.filter
        (fun r => r.user_id == u && r.shown == 0) := List.mem_of_mem_take hrow
    have h2 := List.mem_filter.mp h1
    have h3 := h2.2
    simp only [Bool.and_eq_true, beq_iff_eq] at h3
    exact ⟨row, h2.1, rfl, h3.1, h3.2⟩
  · intro db u lim hlim
    rw [get_next_calibration_batch_fst, List.map_eq_nil_iff, List.take_eq_nil_iff]
    constructor
    · rintro (h | h)
      · exact absurd h (by omega)
      · intro row hrow hu hs
        have hm : row ∈ db.calibration_items.filter
            (fun r => r.user_id == u && r.shown == 0) :=
          List.mem_filter.mpr ⟨hrow, by simp [hu, hs]⟩
        rw [h] at hm
        exact absurd hm (List.not_mem_nil row)
    · intro hall
      right
      rw [List.filter_eq_nil_iff]
      intro row hrow hcond
      simp only [Bool.and_eq_true, beq_iff_eq] at hcond
      exact hall row hrow hcond.1 hcond.2
  · intro gw db u rid st hex
    obtain ⟨row, hrow, hu, hs, hst⟩ := hex
    have hitems := handle_calib_writes_calibration_items gw db u rid st
    have hcond : (((handle_calib_writes gw db u rid st).calibration_items.filter
        (fun r => r.user_id == u && r.shown == 1 && r.status == none)).length == 0)
          = false := by
      rw [beq_eq_false_iff_ne]
      rw [hitems]
      have hmem : row ∈ (set_calibration_status db rid st).calibration_items.filter
          (fun r => r.user_id == u && r.shown == 1 && r.status == none) :=
        List.mem_filter.mpr ⟨hrow, by simp [hu, hs, hst]⟩
      intro hlen
      rw [List.length_eq_zero] at hlen
      rw [hlen] at hmem
      exact absurd hmem (List.not_mem_nil row)
    rw [handle_calib_eq, if_neg (by simp [hcond])]
    rw [hitems, set_calibration_status_items, List.map_map]
    apply List.map_congr_left
    intro r _
    by_cases h : (r.id == rid) = true <;> simp [Function.comp, h]

theorem calibration_batch_gating_witness :
    (∃ row ∈ dbCalibSix.calibration_items,
        row.id = (1, 61, "A", "movie").1 ∧ row.user_id = 1 ∧ row.shown = 0)
      ∧ ((get_next_calibration_batch dbCalibSix 1 3).1 = [] ↔
          ∀ row ∈ dbCalibSix.calibration_items, row.user_id = 1 → row.shown ≠ 0)
      ∧ (handle_calib gwEmpty dbCalibShown 1 1 "watched").calibration_items.map
            (fun r => (r.id, r.shown))
          = dbCalibShown.calibration_items.map (fun r => (r.id, r.shown)) :=
  ⟨calibration_batch_gating.1 dbCalibSix 1 3 (1, 61, "A", "movie") (by decide),
   calibration_batch_gating.2.1 dbCalibSix 1 3 (by decide),
   calibration_batch_gating.2.2 gwEmpty dbCalibShown 1 1 "watched" (by decide)⟩

/-! ## Claim C9: the marker never moves backwards under normal operation -/

theorem markerLe_refl (a : Option String) : markerLe a a = true := by
  cases a with
  | none => rfl
  | some x => simp [markerLe, strLeB]

theorem update_subscription_subs (db : DB) (u t : Int) (s : String) :
    (update_subscription_last_air_date db u t s).subscriptions
      = db.subscriptions.map
          (fun r => if r.user_id == u && r.tmdb_id == t
            then { r with last_air_date := some s } else r) := rfl

theorem mark_subscription_new_subs (db : DB) (u t : Int) :
    (mark_subscription_new db u t).subscriptions
      = db.subscriptions.map
          (fun r => if r.user_id == u && r.tmdb_id == t
            then { r with has_new := 1 } else r) := rfl

/-- Mapping a per-row function that itself respects `rowEvolve` preserves a
`rowEvolve` relation to the original rows. -/
theorem forall₂_rowEvolve_map (gw : Gateway) {base cur : List SubRow}
    (h : List.Forall₂ (rowEvolve gw) base cur) (f : SubRow → SubRow)
    (hf : ∀ r, rowEvolve gw r (f r)) :
    List.Forall₂ (rowEvolve gw) base (cur.map f) := by
  rw [List.forall₂_map_right_iff]
  refine h.imp ?_
  intro o n hn
  obtain ⟨e1, e2, e3⟩ := hn
  obtain ⟨g1, g2, g3⟩ := hf n
  refine ⟨g1.trans e1, g2.trans e2, ?_⟩
  rcases g3 with g3 | g3
  · rw [g3]
    rcases e3 with e3 | e3
    · exact Or.inl e3
    · exact Or.inr (by rwa [g2])
  · exact Or.inr g3

theorem worker_row_step_evolve (gw : Gateway) {base : List SubRow}
    (acc : DB × List Notification)
    (h : List.Forall₂ (rowEvolve gw) base acc.1.subscriptions)
    (row : Int × Int × String × Option String) :
    List.Forall₂ (rowEvolve gw) base ((worker_row_step gw acc row).1).subscriptions := by
  unfold worker_row_step
  cases hfetch : gw.tv_details_last_air row.2.1 with
  | none => exact h
  | some new_last =>
    cases new_last with
    | none => exact h
    | some s =>
      dsimp only
      by_cases hs : s = ""
      · simp only [hs, if_pos rfl]; exact h
      · rw [if_neg hs]
        by_cases he : (some s == row.2.2.2) = true
        · rw [if_pos he]; exact h
        · rw [if_neg he]
          have hupd : List.Forall₂ (rowEvolve gw) base
              (update_subscription_last_air_date acc.1 row.1 row.2.1 s).subscriptions := by
            rw [update_subscription_subs]
            refine forall₂_rowEvolve_map gw h _ ?_
            intro r
            by_cases hc : (r.user_id == row.1 && r.tmdb_id == row.2.1) = true
            · rw [if_pos hc]
              have ht : r.tmdb_id = row.2.1 := by
                have := (Bool.and_eq_true _ _).mp hc
                exact beq_iff_eq.mp this.2
              exact ⟨rfl, rfl, Or.inr ⟨s, by rw [ht]; exact hfetch, hs, rfl⟩⟩
            · rw [if_neg hc]
              exact ⟨rfl, rfl, Or.inl rfl⟩
          have hmark : List.Forall₂ (rowEvolve gw) base
              (mark_subscription_new
                (update_subscription_last_air_date acc.1 row.1 row.2.1 s)
                row.1 row.2.1).subscriptions := by
            rw [mark_subscription_new_subs]
            refine forall₂_rowEvolve_map gw hupd _ ?_
            intro r
            by_cases hc : (r.user_id == row.1 && r.tmdb_id == row.2.1) = true
            · rw [if_pos hc]; exact ⟨rfl, rfl, Or.inl rfl⟩
            · rw [if_neg hc]; exact ⟨rfl, rfl, Or.inl rfl⟩
          cases hchat : get_chat_id
              (mark_subscription_new
                (update_subscription_last_air_date acc.1 row.1 row.2.1 s)
                row.1 row.2.1) row.1 with
          | none => exact hmark
          | some chat =>
            dsimp only
            by_cases hz : (chat == 0) = true
            · rw [if_pos hz]; exact hmark
            · rw [if_neg hz]; exact hmark

theorem worker_cycle_evolve (gw : Gateway) (db : DB) :
    List.Forall₂ (rowEvolve gw) db.subscriptions (worker_cycle gw db).1.subscriptions := by
  unfold worker_cycle
  refine foldl_preserves (worker_row_step gw)
    (fun acc => List.Forall₂ (rowEvolve gw) db.subscriptions acc.1.subscriptions)
    (fun a b ha => worker_row_step_evolve gw a ha b) _ (db, []) ?_
  show List.Forall₂ (rowEvolve gw) db.subscriptions db.subscriptions
  rw [List.forall₂_same]
  intro r _
  exact ⟨rfl, rfl, Or.inl rfl⟩

/-- Claim C9: under normal operation — every truthy marker the Gateway
reports for a subscribed title this cycle is at least (in the lexicographic
ISO-date order) every marker currently stored for that title — a watcher
cycle never replaces any row's stored `last_air_date` with a strictly smaller
one: row for row, the stored marker only moves (weakly) up. -/
theorem subscription_marker_monotone (gw : Gateway) (db : DB)
    (h : ∀ r ∈ db.subscriptions, ∀ s : String,
      gw.tv_details_last_air r.tmdb_id = some (some s) → s ≠ "" →
        markerLe r.last_air_date (some s) = true) :
    List.Forall₂ (fun o n => markerLe o.last_air_date n.last_air_date = true)
      db.subscriptions (worker_cycle gw db).1.subscriptions := by
  have key : ∀ (l₁ l₂ : List SubRow), List.Forall₂ (rowEvolve gw) l₁ l₂ →
      (∀ r ∈ l₁, ∀ s : String,
        gw.tv_details_last_air r.tmdb_id = some (some s) → s ≠ "" →
          markerLe r.last_air_date (some s) = true) →
      List.Forall₂ (fun o n => markerLe o.last_air_date n.last_air_date = true) l₁ l₂ := by
    intro l₁ l₂ hf
    induction hf with
    | nil => intro _; exact List.Forall₂.nil
    | @cons o n l₁' l₂' h₁ h₂ ih =>
      intro hH
      refine List.Forall₂.cons ?_ (ih (fun r hr => hH r (List.mem_cons_of_mem o hr)))
      obtain ⟨e1, e2, e3⟩ := h₁
      rcases e3 with e3 | ⟨s, hs1, hs2, hs3⟩
      · rw [e3]; exact markerLe_refl _
      · rw [hs3]
        rw [e2] at hs1
        exact hH o (List.mem_cons_self o l₁') s hs1 hs2
  exact key db.subscriptions (worker_cycle gw db).1.subscriptions
    (worker_cycle_evolve gw db) h

theorem subscription_marker_monotone_witness :
    List.Forall₂ (fun o n => markerLe o.last_air_date n.last_air_date = true)
      dbSubSeeded.subscriptions (worker_cycle gwAirDateLater dbSubSeeded).1.subscriptions := by
  refine subscription_marker_monotone gwAirDateLater dbSubSeeded ?_
  intro r hr s hs hne
  have hreq : r = ⟨1, 100, "Show", "tv", some "2024-01-01", 0⟩ := by
    simpa [dbSubSeeded] using hr
  subst hreq
  simp only [gwAirDateLater, gwEmpty] at hs
  have hseq : s = "2024-06-01" := by
    simp at hs
    exact hs.symm
  subst hseq
  decide

/-! ## The recommendation pipeline: membership and counting lemmas -/

theorem insertStable_perm {α : Type _} (le : α → α → Bool) (x : α) (l : List α) :
    (insertStable le x l).Perm (x :: l) := by
  induction l with
  | nil => exact List.Perm.refl _
  | cons y ys ih =>
    unfold insertStable
    split
    · exact (ih.cons y).trans (List.Perm.swap x y ys)
    · exact List.Perm.refl _

theorem sortStable_perm {α : Type _} (le : α → α → Bool) (l : List α) :
    (sortStable le l).Perm l := by
  have key : ∀ (l : List α) (acc : List α),
      (l.foldl (fun acc x => insertStable le x acc) acc).Perm (acc ++ l) := by
    intro l
    induction l with
    | nil => intro acc; simp
    | cons x xs ih =>
      intro acc
      have h1 := ih (insertStable le x acc)
      have h2 : (insertStable le x acc).Perm (acc ++ [x]) :=
        (insertStable_perm le x acc).trans (List.perm_append_singleton x acc).symm
      have h3 := (h1.trans (h2.append_right xs))
      simpa using h3
  simpa using key l []

theorem mem_rankedDesc {c : Candidate} {cs : List Candidate}
    (h : c ∈ rankedDesc cs) : c ∈ cs :=
  (sortStable_perm _ cs).mem_iff.mp h

theorem mem_score_all (db : DB) (u : Int) (ug : List Int) (cy : Int)
    (j : Nat → ℚ) :
    ∀ (cs : List Candidate) (i : Nat) (c : Candidate),
      c ∈ score_all db u ug cy j i cs → ∃ c₀ ∈ cs, c.tmdb_id = c₀.tmdb_id := by
  intro cs
  induction cs with
  | nil => intro i c h; simp [score_all] at h
  | cons x xs ih =>
    intro i c h
    rw [score_all, List.mem_cons] at h
    rcases h with h | h
    · exact ⟨x, List.mem_cons_self x xs, by rw [h]⟩
    · obtain ⟨c₀, hc₀, he⟩ := ih (i + 1) c h
      exact ⟨c₀, List.mem_cons_of_mem x hc₀, he⟩

theorem mem_updateFreq {cs : List Candidate} {cid : Int} {c : Candidate}
    (h : c ∈ updateFreq cs cid) : ∃ c₀ ∈ cs, c.tmdb_id = c₀.tmdb_id := by
  unfold updateFreq at h
  obtain ⟨c₀, hc₀, he⟩ := List.mem_map.mp h
  refine ⟨c₀, hc₀, ?_⟩
  rw [← he]
  split <;> rfl

theorem aggStep_inv {fids : List Int} {excl : Int → Bool} {cs : List Candidate}
    {it : Item} (h : ∀ c ∈ cs, fids.contains c.tmdb_id = false) :
    ∀ c ∈ aggStep fids excl cs it, fids.contains c.tmdb_id = false := by
  intro c hc
  unfold aggStep at hc
  split at hc
  · exact h c hc
  · split at hc
    · exact h c hc
    · rename_i hfav _
      rw [Bool.not_eq_true] at hfav
      obtain ⟨c₀, hc₀, he⟩ := mem_updateFreq hc
      rw [he]
      split at hc₀
      · exact h c₀ hc₀
      · rcases List.mem_append.mp hc₀ with hin | hin
        · exact h c₀ hin
        · rw [List.mem_singleton.mp hin]
          exact hfav

theorem aggregate_candidates_inv (gw : Gateway) (fids : List Int)
    (excl : Int → Bool) (favs : List (Int × String × String)) :
    ∀ c ∈ aggregate_candidates gw fids excl favs,
      fids.contains c.tmdb_id = false := by
  unfold aggregate_candidates
  refine foldl_preserves _
    (fun cs : List Candidate => ∀ c ∈ cs, fids.contains c.tmdb_id = false)
    ?_ favs [] (by intro c hc; exact absurd hc (List.not_mem_nil c))
  intro cs f hcs
  refine foldl_preserves _
    (fun cs : List Candidate => ∀ c ∈ cs, fids.contains c.tmdb_id = false)
    ?_ _ cs hcs
  intro cs' it hcs'
  exact aggStep_inv hcs'

theorem select_with_old_cap_sublist (limit max_old : Nat) :
    ∀ (l : List Candidate) (oc sl : Nat),
      (select_with_old_cap limit max_old l oc sl).Sublist l := by
  intro l
  induction l with
  | nil => intro oc sl; rw [select_with_old_cap]
  | cons c rest ih =>
    intro oc sl
    rw [select_with_old_cap]
    split
    · split
      · exact (ih oc sl).cons c
      · split
        · exact (List.nil_sublist rest).cons₂ c
        · exact (ih (oc + 1) (sl + 1)).cons₂ c
    · split
      · exact (List.nil_sublist rest).cons₂ c
      · exact (ih oc (sl + 1)).cons₂ c

theorem select_with_old_cap_countP (limit max_old : Nat) :
    ∀ (l : List Candidate) (oc sl : Nat), oc ≤ max_old →
      (select_with_old_cap limit max_old l oc sl).countP is_old + oc ≤ max_old := by
  intro l
  induction l with
  | nil => intro oc sl h; rw [select_with_old_cap]; simpa using h
  | cons c rest ih =>
    intro oc sl h
    rw [select_with_old_cap]
    split
    · rename_i hold
      split
      · exact ih oc sl h
      · rename_i hcap
        rw [Nat.not_le] at hcap
        split
        · simp only [List.countP_cons, List.countP_nil, hold, if_true]
          omega
        · have hrec := ih (oc + 1) (sl + 1) (by omega)
          simp only [List.countP_cons, hold, if_true]
          omega
    · rename_i hold
      rw [Bool.not_eq_true] at hold
      split
      · simp only [List.countP_cons, List.countP_nil, hold, Bool.false_eq_true, if_false]
        omega
      · have hrec := ih oc (sl + 1) h
        simp only [List.countP_cons, hold, Bool.false_eq_true, if_false]
        omega

/-! ## Claim C1: recommendations never contain a favorite -/

theorem build_recommendations_core_eq (gw : Gateway) (db : DB) (jitter : Nat → ℚ)
    (cy : Int) (u : Int) (limit : Nat) (ff : List (Int × String × String)) :
    build_recommendations_core gw db jitter cy u limit ff
      = if (get_favorites db u).isEmpty then []
        else select_with_old_cap limit (max 1 (limit / 5))
          (ranked_candidates gw db jitter cy u ff) 0 0 := rfl

/-- Claim C1: no title id returned by `build_recommendations` is in the
user's favorites as stored at the time of the call — the aggregation loop
drops every item whose id is a favorite, and scoring, ranking, and the
diversity cut only permute or drop candidates. -/
theorem build_recommendations_never_returns_favorites (gw : Gateway) (db : DB)
    (jitter : Nat → ℚ) (current_year : Int) (user_id : Int) (limit : Nat) :
    ∀ c ∈ build_recommendations gw db jitter current_year user_id limit,
      c.tmdb_id ∉ (get_favorites db user_id).map (fun f => f.1) := by
  intro c hc
  rw [build_recommendations, build_recommendations_core_eq] at hc
  split at hc
  · exact absurd hc (List.not_mem_nil c)
  · have h1 : c ∈ ranked_candidates gw db jitter current_year user_id
        (get_favorites db user_id) :=
      (select_with_old_cap_sublist _ _ _ _ _).mem hc
    rw [ranked_candidates] at h1
    have h2 := mem_rankedDesc h1
    obtain ⟨c₀, hc₀, he⟩ := mem_score_all db user_id
      (get_user_genres db user_id) current_year jitter _ 0 c h2
    have h3 := aggregate_candidates_inv gw
      ((get_favorites db user_id).map (fun f => f.1))
      (fun tid => is_excluded db user_id tid) (get_favorites db user_id) c₀ hc₀
    rw [he]
    intro hmem
    rw [(int_contains_iff _ _).mpr hmem] at h3
    exact absurd h3 (by decide)

theorem build_recommendations_never_returns_favorites_witness :
    ((build_recommendations gwRelatedNew dbOneFav (fun _ => 0) 2024 1 10).headD
        noCandidate).tmdb_id
      ∉ (get_favorites dbOneFav 1).map (fun f => f.1) :=
  build_recommendations_never_returns_favorites gwRelatedNew dbOneFav
    (fun _ => 0) 2024 1 10 _ (headD_mem _ _ (by decide))

/-! ## Claim C4: the old-title cap, amended to positive limits -/

/-- Claim C4 (amended to `N ≥ 1`, as forced by the `N = 0` counterexample):
for every limit `N ≥ 1` the returned list has at most
`max(1, ⌊N/5⌋) ≤ ⌈0.2·N⌉ = (N+4)/5` titles with a truthy release year below
1990; in particular at most 2 for `N = 10`.  (`int(limit*0.2)` evaluates to
`⌊limit/5⌋` for every nonnegative integer limit, see
`build_recommendations_core`.) -/
theorem old_cap_at_most_ceil (gw : Gateway) (db : DB) (jitter : Nat → ℚ)
    (current_year : Int) (user_id : Int) (n : Nat) (h : 1 ≤ n) :
    (build_recommendations gw db jitter current_year user_id n).countP is_old
      ≤ (n + 4) / 5 := by
  rw [build_recommendations, build_recommendations_core_eq]
  split
  · simp
  · have h1 := select_with_old_cap_countP n (max 1 (n / 5))
      (ranked_candidates gw db jitter current_year user_id (get_favorites db user_id))
      0 0 (Nat.zero_le _)
    have h2 : max 1 (n / 5) ≤ (n + 4) / 5 := by
      rw [Nat.max_le]
      constructor
      · omega
      · exact Nat.div_le_div_right (by omega)
    omega

theorem old_cap_at_most_ceil_witness :
    1 ≤ 10
      ∧ (build_recommendations gwRelatedNew dbOneFav (fun _ => 0) 2024 1 10).countP is_old
        ≤ (10 + 4) / 5 :=
  ⟨by decide,
   old_cap_at_most_ceil gwRelatedNew dbOneFav (fun _ => 0) 2024 1 10 (by decide)⟩

/-! ## Claim C8: a failed related-titles fetch contributes nothing -/

theorem aggregate_candidates_filter (gw : Gateway) (fids : List Int)
    (excl : Int → Bool) (favs : List (Int × String × String)) :
    aggregate_candidates gw fids excl favs
      = aggregate_candidates gw fids excl
          (favs.filter (fun f => !(get_similar_and_recommended gw f.2.2 f.1).isEmpty)) := by
  unfold aggregate_candidates
  apply foldl_congr_filter
  intro f hf a
  have hempty : get_similar_and_recommended gw f.2.2 f.1 = [] := by
    rw [Bool.not_eq_false'] at hf
    exact List.isEmpty_iff.mp hf
  rw [hempty]
  rfl

/-- Claim C8: a Gateway failure (or empty result) for some favorites' related
titles never aborts `build_recommendations`: the run equals the same
computation in which the aggregation loop visits only the favorites whose
fetches produced data, so each failing favorite simply contributes no
candidates while exclusion still uses the full favorites list. -/
theorem gateway_failure_contributes_nothing (gw : Gateway) (db : DB)
    (jitter : Nat → ℚ) (current_year : Int) (user_id : Int) (limit : Nat) :
    build_recommendations gw db jitter current_year user_id limit
      = build_recommendations_core gw db jitter current_year user_id limit
          ((get_favorites db user_id).filter
            (fun f => !(get_similar_and_recommended gw f.2.2 f.1).isEmpty)) := by
  rw [build_recommendations, build_recommendations_core_eq, build_recommendations_core_eq]
  rw [ranked_candidates, ranked_candidates, aggregate_candidates_filter]

/-! ## Claim C5: calibration-pool size and deduplication -/

theorem add_calibration_items_spec (db : DB) (u : Int) (items : List Item) :
    (add_calibration_items db u items).calibration_items
      = db.calibration_items ++ calRows u db.calib_next_id items := by
  induction items generalizing db with
  | nil => simp [add_calibration_items, calRows]
  | cons it its ih =>
    rw [show add_calibration_items db u (it :: its)
        = add_calibration_items
            { db with
              calibration_items := db.calibration_items ++
                [{ id := db.calib_next_id, user_id := u, tmdb_id := it.id,
                   title := item_title it, media_type := item_media_type it,
                   status := none, shown := 0 }],
              calib_next_id := db.calib_next_id + 1 } u its from rfl]
    rw [ih]
    rw [calRows]
    simp [List.append_assoc]

theorem calRows_length (u : Int) : ∀ (n : Nat) (items : List Item),
    (calRows u n items).length = items.length := by
  intro n items
  induction items generalizing n with
  | nil => rfl
  | cons it its ih => rw [calRows]; simp [ih]

theorem calRows_map_id (u : Int) : ∀ (n : Nat) (items : List Item),
    (calRows u n items).map (fun r => r.tmdb_id) = items.map (fun it => it.id) := by
  intro n items
  induction items generalizing n with
  | nil => rfl
  | cons it its ih => rw [calRows]; simp [ih]

theorem build_calibration_candidates_eq (gw : Gateway) (db : DB) (u : Int)
    (mpf : Nat) :
    build_calibration_candidates gw db u mpf
      = add_calibration_items db u
          ((get_favorites db u).foldl
            (fun cs f =>
              ((get_similar_and_recommended gw f.2.2 f.1).take mpf).foldl
                (fun cs it =>
                  if cs.any (fun c => c.id == it.id) then cs else cs ++ [it]) cs)
            []) := rfl

theorem dedup_step_nodup (cs : List Item) (it : Item)
    (h : (cs.map (fun c => c.id)).Nodup) :
    (((if cs.any (fun c => c.id == it.id) then cs else cs ++ [it])).map
      (fun c => c.id)).Nodup := by
  split
  · exact h
  · rename_i hany
    rw [Bool.not_eq_true, List.any_eq_false] at hany
    rw [List.map_append, List.map_singleton, List.nodup_append]
    refine ⟨h, List.nodup_singleton _, ?_⟩
    intro a ha hb
    rw [List.mem_singleton] at hb
    subst hb
    obtain ⟨c, hc, hid⟩ := List.mem_map.mp ha
    exact hany c hc (by rw [beq_iff_eq]; exact hid)

theorem pool_fold_nodup (gw : Gateway) (mpf : Nat)
    (favs : List (Int × String × String)) :
    ((favs.foldl
        (fun cs f =>
          ((get_similar_and_recommended gw f.2.2 f.1).take mpf).foldl
            (fun cs it =>
              if cs.any (fun c => c.id == it.id) then cs else cs ++ [it]) cs)
        []).map (fun it => it.id)).Nodup := by
  refine foldl_preserves _
    (fun cs : List Item => (cs.map (fun c => c.id)).Nodup) ?_ favs [] (by simp)
  intro cs f hcs
  refine foldl_preserves _
    (fun cs : List Item => (cs.map (fun c => c.id)).Nodup) ?_ _ cs hcs
  intro cs' it hcs'
  exact dedup_step_nodup cs' it hcs'

theorem dedup_fold_le : ∀ (its : List Item) (cs : List Item),
    ((its.foldl
        (fun cs it =>
          if cs.any (fun c => c.id == it.id) then cs else cs ++ [it]) cs).length
      ≤ cs.length + its.length) := by
  intro its
  induction its with
  | nil => intro cs; simp
  | cons it its ih =>
    intro cs
    rw [List.foldl_cons]
    refine le_trans (ih _) ?_
    rw [List.length_cons]
    split
    · omega
    · rw [List.length_append, List.length_singleton]
      omega

theorem pool_fold_le (gw : Gateway) (mpf : Nat) :
    ∀ (favs : List (Int × String × String)) (cs : List Item),
      ((favs.foldl
          (fun cs f =>
            ((get_similar_and_recommended gw f.2.2 f.1).take mpf).foldl
              (fun cs it =>
                if cs.any (fun c => c.id == it.id) then cs else cs ++ [it]) cs)
          cs).length
        ≤ cs.length + favs.length * mpf) := by
  intro favs
  induction favs with
  | nil => intro cs; simp
  | cons f fs ih =>
    intro cs
    rw [List.foldl_cons]
    refine le_trans (ih _) ?_
    have h1 := dedup_fold_le ((get_similar_and_recommended gw f.2.2 f.1).take mpf) cs
    have h2 : ((get_similar_and_recommended gw f.2.2 f.1).take mpf).length ≤ mpf := by
      rw [List.length_take]
      exact Nat.min_le_left _ _
    rw [List.length_cons, Nat.succ_mul]
    omega

/-- Claim C5 (amended): the calibration pool built by
`build_calibration_candidates` is deduplicated by title id across all
favorites (the appended rows carry pairwise distinct tmdb ids), and each
favorite contributes at most `max_per_fav` (called with 10) related titles,
so the pool has at most `10 · |favorites|` entries; there is no overall cap
of 9.  A pool from 2 favorites with 6 related titles each and 3 overlaps does
have 9 entries, but a single favorite with 10 distinct related titles already
yields 10. -/
theorem calibration_pool_dedup_and_bound (gw : Gateway) (db : DB) (u : Int)
    (mpf : Nat) :
    (build_calibration_candidates gw db u mpf).calibration_items.length
        ≤ db.calibration_items.length + (get_favorites db u).length * mpf
      ∧ (((build_calibration_candidates gw db u mpf).calibration_items.drop
            db.calibration_items.length).map (fun r => r.tmdb_id)).Nodup := by
  rw [build_calibration_candidates_eq, add_calibration_items_spec]
  constructor
  · rw [List.length_append, calRows_length]
    have := pool_fold_le gw mpf (get_favorites db u) []
    simpa using this
  · rw [List.drop_left, calRows_map_id]
    exact pool_fold_nodup gw mpf (get_favorites db u)
